import Mathlib

/-!
Shallow embedding of the support-ticket backend (`src/backend_logic.py`).

Conventions of the embedding:
* The ticket store is a `List Ticket`; a Django queryset is a list of rows.
* Timestamps (`created_at`, `now`) are integers counting seconds; Python's
  `timedelta.days` is floor division by 86400 (`Int.fdiv`).
* `round(x, 1)` is modelled over exact rationals with round-half-to-even
  (Python's rounding mode); binary floating-point representation error is
  not modelled.
* HTTP query parameters are `Option String` (absent or a string); Python's
  `if param:` truthiness makes the empty string behave as absent.
* The external classification call is a parameter of the `Classify` view:
  either the content parsed as JSON (`ExtOutcome.ok`) or an exception whose
  `str(e)` is the carried message (`ExtOutcome.exn`).  The second component
  of the view's result records whether the outbound call was made.
-/

set_option linter.unusedVariables false

namespace STS

/-- `Ticket.CATEGORY_CHOICES` values. -/
inductive Category where
  | billing | technical | account | general
deriving DecidableEq, Repr

/-- `Ticket.PRIORITY_CHOICES` values. -/
inductive Priority where
  | low | medium | high | critical
deriving DecidableEq, Repr

/-- `Ticket.STATUS_CHOICES` values (`open` is a Lean keyword, hence `open_`). -/
inductive Status where
  | open_ | in_progress | resolved | closed
deriving DecidableEq, Repr

/-- The stored string of a category. -/
def catStr : Category → String
  | .billing => "billing"
  | .technical => "technical"
  | .account => "account"
  | .general => "general"

/-- The stored string of a priority. -/
def prioStr : Priority → String
  | .low => "low"
  | .medium => "medium"
  | .high => "high"
  | .critical => "critical"

/-- The stored string of a status. -/
def statusStr : Status → String
  | .open_ => "open"
  | .in_progress => "in_progress"
  | .resolved => "resolved"
  | .closed => "closed"

/-- The `Ticket` model.  `category`/`priority`/`status` are enum-valued, as
enforced by `TicketSerializer` validation of the model's `choices`. -/
structure Ticket where
  id : Nat
  title : String
  description : String
  category : Category
  priority : Priority
  status : Status
  created_at : Int
deriving DecidableEq, Repr

/-- The four choice strings, first components of `PRIORITY_CHOICES`. -/
def PRIORITY_CHOICES : List String := ["low", "medium", "high", "critical"]

/-- The four choice strings, first components of `CATEGORY_CHOICES`. -/
def CATEGORY_CHOICES : List String := ["billing", "technical", "account", "general"]

/-! ## Filter Engine (`TicketViewSet.get_queryset`) -/

/-- The optional query parameters of the list endpoint. -/
structure QueryParams where
  category : Option String
  priority : Option String
  status : Option String
  search : Option String
deriving DecidableEq, Repr

/-- No query parameters supplied. -/
def noParams : QueryParams := ⟨none, none, none, none⟩

/-- Lower-cased characters of a string (Python `str.lower()`). -/
def lowerChars (s : String) : List Char := s.toList.map Char.toLower

/-- Contiguous-sublist test on character lists (substring containment). -/
def isSubChars (needle : List Char) : List Char → Bool
  | [] => needle.isEmpty
  | c :: rest => needle.isPrefixOf (c :: rest) || isSubChars needle rest

/-- Django `field__icontains`: case-insensitive substring containment. -/
def icontains (needle hay : String) : Bool :=
  isSubChars (lowerChars needle) (lowerChars hay)

/-- `TicketViewSet.get_queryset`: sequential conditional filters.  Each
parameter is applied only when Python-truthy (present and non-empty). -/
def get_queryset (db : List Ticket) (qp : QueryParams) : List Ticket :=
  let queryset := db
  let queryset := match qp.category with
    | none => queryset
    | some c => if c == "" then queryset else
        queryset.filter (fun t => catStr t.category == c)
  let queryset := match qp.priority with
    | none => queryset
    | some p => if p == "" then queryset else
        queryset.filter (fun t => prioStr t.priority == p)
  let queryset := match qp.status with
    | none => queryset
    | some s => if s == "" then queryset else
        queryset.filter (fun t => statusStr t.status == s)
  let queryset := match qp.search with
    | none => queryset
    | some s => if s == "" then queryset else
        queryset.filter (fun t => icontains s t.title || icontains s t.description)
  queryset

/-- The default ordering `Meta.ordering = ['-created_at']`: newest first. -/
def newestFirst (a b : Ticket) : Prop := b.created_at ≤ a.created_at

instance : DecidableRel newestFirst :=
  fun a b => inferInstanceAs (Decidable (b.created_at ≤ a.created_at))

instance : IsTotal Ticket newestFirst :=
  ⟨fun a b => le_total b.created_at a.created_at⟩

instance : IsTrans Ticket newestFirst :=
  ⟨fun _ _ _ h1 h2 => le_trans h2 h1⟩

/-- The list endpoint: the filtered queryset under the model's default
`-created_at` ordering (a stable sort, newest first). -/
def list_tickets (db : List Ticket) (qp : QueryParams) : List Ticket :=
  (get_queryset db qp).insertionSort newestFirst

/-! ## Stats Aggregator (`TicketViewSet.stats`) -/

/-- Exact-rational model of Python `round` to an integer: round half to
even (banker's rounding). -/
def pyRound (q : ℚ) : ℤ :=
  let f := ⌊q⌋
  if q - f < 1/2 then f
  else if 1/2 < q - f then f + 1
  else if 2 ∣ f then f else f + 1

/-- `round(x, 1)`: one decimal place. -/
def round1 (q : ℚ) : ℚ := (pyRound (q * 10) : ℚ) / 10

/-- `models.Min('created_at')`: `none` on an empty table. -/
def first_created (db : List Ticket) : Option Int :=
  (db.map Ticket.created_at).min?

/-- A Python dict assignment `d[k] = v`: overwrite if the key is present,
append otherwise. -/
def dictSet (d : List (String × Nat)) (k : String) (v : Nat) : List (String × Nat) :=
  if d.any (fun kv => kv.1 == k) then
    d.map (fun kv => if kv.1 == k then (k, v) else kv)
  else d ++ [(k, v)]

/-- `values(field).annotate(count=Count(field))`: the distinct values
present, each with the number of rows carrying it. -/
def groupCounts (vals : List String) : List (String × Nat) :=
  vals.dedup.map (fun v => (v, vals.count v))

/-- The breakdown-dict construction used for both `priority_breakdown` and
`category_breakdown`: a zero-initialised dict over the choices, then one
dict assignment per annotated group. -/
def breakdown (choices : List String) (vals : List String) : List (String × Nat) :=
  (groupCounts vals).foldl (fun d kv => dictSet d kv.1 kv.2)
    (choices.map (fun c => (c, 0)))

/-- The `priority_breakdown` dict of the stats endpoint. -/
def priority_breakdown (db : List Ticket) : List (String × Nat) :=
  breakdown PRIORITY_CHOICES (db.map (fun t => prioStr t.priority))

/-- The `category_breakdown` dict of the stats endpoint. -/
def category_breakdown (db : List Ticket) : List (String × Nat) :=
  breakdown CATEGORY_CHOICES (db.map (fun t => catStr t.category))

/-- The response record of the stats endpoint. -/
structure Stats where
  total_tickets : Nat
  open_tickets : Nat
  avg_tickets_per_day : ℚ
  priority_breakdown : List (String × Nat)
  category_breakdown : List (String × Nat)
deriving DecidableEq, Repr

/-- `TicketViewSet.stats`.  `thirty_days_ago` is computed by the source but
never used, exactly as in the code. -/
def stats (db : List Ticket) (now : Int) : Stats :=
  let thirty_days_ago := now - 30 * 86400
  let total := db.length
  let first_ticket := (first_created db).getD now
  let days_active := max ((now - first_ticket).fdiv 86400) 1
  let avg_per_day := round1 ((total : ℚ) / (days_active : ℚ))
  { total_tickets := total,
    open_tickets := (db.filter (fun t => statusStr t.status == "open")).length,
    avg_tickets_per_day := avg_per_day,
    priority_breakdown := priority_breakdown db,
    category_breakdown := category_breakdown db }

/-! ## Spec-side definitions (for refinement claims)

These follow the wording of the specification, to be compared with the
definitions above taken from the source. -/

/-- Spec wording: the earliest `created_at`; with zero tickets the
earliest-timestamp reference defaults to "now". -/
def spec_earliest (db : List Ticket) (now : Int) : Int :=
  if db.isEmpty then now else ((db.map Ticket.created_at).min?).getD now

/-- Spec wording: `days_active = max(1, floor(now − earliest created_at in
days))`. -/
def spec_days_active (db : List Ticket) (now : Int) : Int :=
  max 1 ((now - spec_earliest db now).fdiv 86400)

/-- Spec wording: `total_tickets / days_active`, rounded to one decimal
place, averaged over the ENTIRE ticket set (no 30-day window is applied). -/
def spec_avg_tickets_per_day (db : List Ticket) (now : Int) : ℚ :=
  round1 ((db.length : ℚ) / (spec_days_active db now : ℚ))

/-- Spec wording of `search`: the search string is a case-insensitive
substring of the field. -/
def spec_substr (needle hay : String) : Prop :=
  ∃ l1 l2, lowerChars hay = l1 ++ lowerChars needle ++ l2

/-- Spec wording of the list contract: the conjunction of all supplied
filters, where an empty-string parameter counts as not supplied; `search`
matches on title OR description. -/
def specSatisfies (qp : QueryParams) (t : Ticket) : Prop :=
  (∀ c, qp.category = some c → c ≠ "" → catStr t.category = c)
  ∧ (∀ p, qp.priority = some p → p ≠ "" → prioStr t.priority = p)
  ∧ (∀ s, qp.status = some s → s ≠ "" → statusStr t.status = s)
  ∧ (∀ s, qp.search = some s → s ≠ "" →
      (spec_substr s t.title ∨ spec_substr s t.description))

/-! ## Classification Gateway (`ClassifyView.post`) -/

/-- A JSON value, as produced by `json.loads`. -/
inductive Json where
  | null
  | bool (b : Bool)
  | num (n : Int)
  | str (s : String)
  | arr (elems : List Json)
  | obj (fields : List (String × Json))

/-- Field access on a JSON object (first binding wins, as in a dict). -/
def Json.getField (j : Json) (k : String) : Option Json :=
  match j with
  | .obj fs => fs.lookup k
  | _ => none

/-- The keys of a JSON object (empty for non-objects). -/
def Json.keys : Json → List String
  | .obj fs => fs.map Prod.fst
  | _ => []

/-- Outcome of the outbound call plus `json.loads`: either a parsed JSON
value, or any raised exception with its `str(e)` message. -/
inductive ExtOutcome where
  | ok (parsed : Json)
  | exn (msg : String)

/-- A DRF response: status code and JSON body. -/
structure HttpResponse where
  status_code : Nat
  body : Json

def HTTP_200_OK : Nat := 200

def HTTP_400_BAD_REQUEST : Nat := 400

namespace ClassifyView

/-- `ClassifyView.post`.  The request's `description` field is `none` when
missing; `request.data.get('description', '')` defaults it to `""`.  The
returned `Bool` records whether the outbound classification call was made. -/
def post (descriptionOpt : Option String) (ext : ExtOutcome) : HttpResponse × Bool :=
  let description := descriptionOpt.getD ""
  if description == "" then
    ({ status_code := HTTP_400_BAD_REQUEST,
       body := .obj [("error", .str "Description required")] }, false)
  else
    match ext with
    | .ok result => ({ status_code := HTTP_200_OK, body := result }, true)
    | .exn e =>
        ({ status_code := HTTP_200_OK,
           body := .obj [("suggested_category", .str "general"),
                         ("suggested_priority", .str "medium"),
                         ("error", .str e)] }, true)

end ClassifyView

/-- A parsed external reply carrying a third field beside the two
suggested ones. -/
def extraObj : Json :=
  .obj [("suggested_category", .str "billing"),
        ("suggested_priority", .str "high"),
        ("confidence", .str "low")]

/-! ## Helper lemmas: rounding -/

lemma pyRound_intCast (n : ℤ) : pyRound (n : ℚ) = n := by
  simp [pyRound, Int.floor_intCast]

lemma round1_intCast (n : ℤ) : round1 (n : ℚ) = n := by
  have h : ((n : ℚ) * 10) = ((n * 10 : ℤ) : ℚ) := by push_cast; ring
  rw [round1, h, pyRound_intCast]
  push_cast
  ring_nf

lemma round1_natCast (n : ℕ) : round1 (n : ℚ) = n := by
  simpa using round1_intCast (n : ℤ)

lemma round1_zero : round1 0 = 0 := by
  simpa using round1_intCast 0

/-! ## Helper lemmas: minima of timestamps -/

lemma min?_all_eq (c : Int) :
    ∀ (l : List Int), l ≠ [] → (∀ x ∈ l, x = c) → l.min? = some c
  | [x], _, h => by rw [h x (by simp)]; rfl
  | x :: y :: xs, _, h => by
    have hx : x = c := h x (by simp)
    have ih : (y :: xs).min? = some c :=
      min?_all_eq c (y :: xs) (by simp) (fun z hz => h z (List.mem_cons_of_mem x hz))
    rw [List.min?_cons, ih]
    simp [hx]

lemma spec_earliest_eq (db : List Ticket) (now : Int) :
    spec_earliest db now = (first_created db).getD now := by
  cases db <;> simp [spec_earliest, first_created]

lemma avg_empty (now : Int) : (stats [] now).avg_tickets_per_day = 0 := by
  simp [stats, first_created, round1_zero]

/-- Claim C1: for every ticket set, `avg_tickets_per_day` is
`total_tickets / days_active` rounded to one decimal place with
`days_active = max(1, floor(now − earliest created_at in days))`; with zero
tickets the earliest reference defaults to now and the average is 0.  The
spec-side formula averages over the entire ticket set: the 30-day window
computed by the code is never applied as a filter. -/
theorem stats_avg_lifetime (db : List Ticket) (now : Int) :
    (stats db now).avg_tickets_per_day = spec_avg_tickets_per_day db now
  ∧ (db = [] → (stats db now).avg_tickets_per_day = 0) := by
  constructor
  · simp [stats, spec_avg_tickets_per_day, spec_days_active, spec_earliest_eq, max_comm]
  · rintro rfl
    exact avg_empty now

/-- Witness for C1 at the empty ticket set. -/
theorem stats_avg_lifetime_witness : (stats [] 0).avg_tickets_per_day = 0 :=
  (stats_avg_lifetime [] 0).2 rfl

/-- Claim C8: with a non-empty ticket set all created at "now", the
elapsed time floors to 0 days, `days_active` is clamped to 1, and the
average equals the number of tickets. -/
theorem stats_all_created_now (db : List Ticket) (now : Int)
    (hne : db ≠ []) (hall : ∀ t ∈ db, t.created_at = now) :
    (stats db now).avg_tickets_per_day = (db.length : ℚ) := by
  have hfc : first_created db = some now := by
    apply min?_all_eq
    · simpa [first_created] using hne
    · intro x hx
      rcases List.mem_map.mp hx with ⟨t, ht, rfl⟩
      exact hall t ht
  have hmax : max ((now - now).fdiv 86400) 1 = 1 := by norm_num
  simp [stats, hfc, hmax, round1_natCast]

/-- Witness for C8: two tickets created at time 5, queried at time 5. -/
theorem stats_all_created_now_witness :
    (stats [⟨1, "a", "b", .billing, .low, .open_, 5⟩,
            ⟨2, "c", "d", .technical, .high, .open_, 5⟩] 5).avg_tickets_per_day
      = ((2 : ℕ) : ℚ) :=
  stats_all_created_now _ 5 (by decide) (by decide)

/-- Claim C2: on any failure of the external classification call, the view
returns a success-level (200) response whose body carries the default
suggestion `general`/`medium` and a non-empty `error` field with the
failure description; no failure status code is surfaced. -/
theorem classify_failure_defaults (d msg : String) (hd : d ≠ "") (hm : msg ≠ "") :
    (ClassifyView.post (some d) (.exn msg)).1.status_code = HTTP_200_OK
  ∧ (ClassifyView.post (some d) (.exn msg)).2 = true
  ∧ (ClassifyView.post (some d) (.exn msg)).1.body.getField "suggested_category"
      = some (.str "general")
  ∧ (ClassifyView.post (some d) (.exn msg)).1.body.getField "suggested_priority"
      = some (.str "medium")
  ∧ (ClassifyView.post (some d) (.exn msg)).1.body.getField "error" = some (.str msg)
  ∧ (ClassifyView.post (some d) (.exn msg)).1.body.getField "error" ≠ some (.str "") := by
  have hpost : ClassifyView.post (some d) (.exn msg) =
      ({ status_code := HTTP_200_OK,
         body := .obj [("suggested_category", .str "general"),
                       ("suggested_priority", .str "medium"),
                       ("error", .str msg)] }, true) := by
    simp [ClassifyView.post, hd]
  rw [hpost]
  simp [Json.getField, List.lookup, hm]

/-- Witness for C2: a concrete description and failure message. -/
theorem classify_failure_defaults_witness :
    (ClassifyView.post (some "help me") (.exn "Connection error.")).1.status_code = HTTP_200_OK
  ∧ (ClassifyView.post (some "help me") (.exn "Connection error.")).2 = true
  ∧ (ClassifyView.post (some "help me") (.exn "Connection error.")).1.body.getField
      "suggested_category" = some (.str "general")
  ∧ (ClassifyView.post (some "help me") (.exn "Connection error.")).1.body.getField
      "suggested_priority" = some (.str "medium")
  ∧ (ClassifyView.post (some "help me") (.exn "Connection error.")).1.body.getField
      "error" = some (.str "Connection error.")
  ∧ (ClassifyView.post (some "help me") (.exn "Connection error.")).1.body.getField
      "error" ≠ some (.str "") :=
  classify_failure_defaults "help me" "Connection error." (by decide) (by decide)

/-- Claim C5: a missing or empty description fails immediately with a
client error (400) and no outbound call is made. -/
theorem classify_requires_description (dOpt : Option String)
    (hempty : dOpt = none ∨ dOpt = some "") (ext : ExtOutcome) :
    (ClassifyView.post dOpt ext).1.status_code = HTTP_400_BAD_REQUEST
  ∧ (ClassifyView.post dOpt ext).2 = false := by
  rcases hempty with rfl | rfl <;> exact ⟨rfl, rfl⟩

/-- Witness for C5 at a missing description. -/
theorem classify_requires_description_witness :
    (ClassifyView.post none (.exn "down")).1.status_code = HTTP_400_BAD_REQUEST
  ∧ (ClassifyView.post none (.exn "down")).2 = false :=
  classify_requires_description none (Or.inl rfl) (.exn "down")

/-- Counterexample to claim C6 as stated: when the parsed reply carries an
extra field, the response body is the whole parsed object, not exactly the
two fields `suggested_category` and `suggested_priority`. -/
theorem classify_extra_field_cex :
    ((ClassifyView.post (some "printer is on fire") (.ok extraObj)).1.body = extraObj)
  ∧ extraObj.getField "suggested_category" = some (.str "billing")
  ∧ extraObj.getField "suggested_priority" = some (.str "high")
  ∧ ((ClassifyView.post (some "printer is on fire") (.ok extraObj)).1.body.keys
      ≠ ["suggested_category", "suggested_priority"]) := by
  refine ⟨rfl, rfl, rfl, ?_⟩
  decide

/-- Claim C6 (amended): on a successful external call whose content parses
as JSON, the view returns the parsed value verbatim as the whole success
body — in particular the two suggested fields are passed through with no
validation against the enumerated sets. -/
theorem classify_success_passthrough (d : String) (hd : d ≠ "") (result : Json) :
    (ClassifyView.post (some d) (.ok result)).1.status_code = HTTP_200_OK
  ∧ (ClassifyView.post (some d) (.ok result)).1.body = result
  ∧ (ClassifyView.post (some d) (.ok result)).2 = true := by
  simp [ClassifyView.post, hd]

/-- Witness for the amended C6: a non-enumerated string value passes
through unvalidated. -/
theorem classify_success_passthrough_witness :
    (ClassifyView.post (some "help") (.ok (.str "weird"))).1.status_code = HTTP_200_OK
  ∧ (ClassifyView.post (some "help") (.ok (.str "weird"))).1.body = .str "weird"
  ∧ (ClassifyView.post (some "help") (.ok (.str "weird"))).2 = true :=
  classify_success_passthrough "help" (by decide) (.str "weird")

/-- Claim C7: with zero tickets, stats returns all-zero counts, a zero
average, and both breakdowns fully populated with zero for each of their
four keys. -/
theorem stats_empty (now : Int) :
    stats [] now =
      { total_tickets := 0, open_tickets := 0, avg_tickets_per_day := 0,
        priority_breakdown := [("low", 0), ("medium", 0), ("high", 0), ("critical", 0)],
        category_breakdown := [("billing", 0), ("technical", 0), ("account", 0), ("general", 0)] } := by
  simp [stats, first_created, round1_zero, priority_breakdown, category_breakdown,
    breakdown, groupCounts, PRIORITY_CHOICES, CATEGORY_CHOICES]

/-! ## Helper lemmas: breakdown dicts -/

lemma dictSet_map_of_mem (keys : List String) (g : String → Nat) (k : String) (v : Nat)
    (hk : k ∈ keys) :
    dictSet (keys.map (fun p => (p, g p))) k v
      = keys.map (fun p => (p, if p = k then v else g p)) := by
  unfold dictSet
  have hany : (keys.map (fun p => (p, g p))).any (fun kv => kv.1 == k) = true := by
    simp only [List.any_eq_true]
    exact ⟨(k, g k), List.mem_map.mpr ⟨k, hk, rfl⟩, by simp⟩
  rw [if_pos hany, List.map_map]
  apply List.map_congr_left
  intro p _
  by_cases h : p = k
  · subst h; simp
  · simp [Function.comp, h]

lemma foldl_dictSet (choices : List String) (f : String → Nat) :
    ∀ (xs : List String) (g : String → Nat), (∀ k ∈ xs, k ∈ choices) →
      (xs.map (fun k => (k, f k))).foldl (fun d kv => dictSet d kv.1 kv.2)
        (choices.map (fun p => (p, g p)))
      = choices.map (fun p => (p, if p ∈ xs then f p else g p))
  | [], g, _ => by simp
  | x :: xs, g, hsub => by
    simp only [List.map_cons, List.foldl_cons]
    rw [dictSet_map_of_mem choices g x (f x) (hsub x (by simp))]
    rw [foldl_dictSet choices f xs (fun p => if p = x then f x else g p)
        (fun k hk => hsub k (List.mem_cons_of_mem x hk))]
    apply List.map_congr_left
    intro p _
    by_cases hpx : p ∈ xs
    · simp [hpx]
    · by_cases hpe : p = x
      · subst hpe; simp [hpx]
      · simp [hpx, hpe]

lemma breakdown_eq (choices vals : List String) (hsub : ∀ v ∈ vals, v ∈ choices) :
    breakdown choices vals = choices.map (fun p => (p, vals.count p)) := by
  unfold breakdown groupCounts
  rw [foldl_dictSet choices (fun v => vals.count v) vals.dedup (fun _ => 0)
      (fun k hk => hsub k (List.mem_dedup.mp hk))]
  apply List.map_congr_left
  intro p _
  by_cases h : p ∈ vals.dedup
  · simp [h]
  · have hnot : p ∉ vals := fun hmem => h (List.mem_dedup.mpr hmem)
    simp [h, List.count_eq_zero.mpr hnot]

lemma prio_vals_sub (db : List Ticket) :
    ∀ v ∈ db.map (fun t => prioStr t.priority), v ∈ PRIORITY_CHOICES := by
  intro v hv
  rcases List.mem_map.mp hv with ⟨t, _, rfl⟩
  cases t.priority <;> simp [prioStr, PRIORITY_CHOICES]

lemma cat_vals_sub (db : List Ticket) :
    ∀ v ∈ db.map (fun t => catStr t.category), v ∈ CATEGORY_CHOICES := by
  intro v hv
  rcases List.mem_map.mp hv with ⟨t, _, rfl⟩
  cases t.category <;> simp [catStr, CATEGORY_CHOICES]

lemma priority_breakdown_eq (db : List Ticket) :
    priority_breakdown db
      = PRIORITY_CHOICES.map (fun p => (p, (db.map (fun t => prioStr t.priority)).count p)) :=
  breakdown_eq _ _ (prio_vals_sub db)

lemma category_breakdown_eq (db : List Ticket) :
    category_breakdown db
      = CATEGORY_CHOICES.map (fun c => (c, (db.map (fun t => catStr t.category)).count c)) :=
  breakdown_eq _ _ (cat_vals_sub db)

lemma lookup_map_key (h : String → Nat) :
    ∀ (xs : List String) (p : String), p ∈ xs →
      (xs.map (fun k => (k, h k))).lookup p = some (h p)
  | x :: xs, p, hp => by
    rw [List.map_cons]
    by_cases hpe : p = x
    · subst hpe; simp [List.lookup]
    · have hmem : p ∈ xs := by
        rcases List.mem_cons.mp hp with h1 | h1
        · exact absurd h1 hpe
        · exact h1
      simp only [List.lookup]
      rw [show (p == x) = false from beq_eq_false_iff_ne.mpr hpe]
      exact lookup_map_key h xs p hmem

/-! ## Helper lemmas: sums over the choice lists -/

lemma sum_map_add (f g : String → Nat) :
    ∀ l : List String, (l.map (fun p => f p + g p)).sum = (l.map f).sum + (l.map g).sum
  | [] => rfl
  | x :: xs => by
    simp only [List.map_cons, List.sum_cons, sum_map_add f g xs]
    omega

lemma sum_indicator_zero (v : String) :
    ∀ l : List String, v ∉ l → (l.map (fun p => if v == p then 1 else 0)).sum = 0
  | [], _ => rfl
  | x :: xs, hv => by
    have hxv : (v == x) = false := by
      apply beq_eq_false_iff_ne.mpr
      intro h
      exact hv (by rw [h]; exact List.mem_cons_self x xs)
    simp only [List.map_cons, List.sum_cons, hxv, if_false]
    simpa using sum_indicator_zero v xs (fun h => hv (List.mem_cons_of_mem x h))

lemma sum_indicator_one (v : String) :
    ∀ l : List String, l.Nodup → v ∈ l → (l.map (fun p => if v == p then 1 else 0)).sum = 1
  | x :: xs, hnd, hv => by
    by_cases hxv : x = v
    · subst hxv
      have hnot : x ∉ xs := (List.nodup_cons.mp hnd).1
      simp only [List.map_cons, List.sum_cons, beq_self_eq_true, if_true]
      simpa using sum_indicator_zero x xs hnot
    · have hmem : v ∈ xs := by
        rcases List.mem_cons.mp hv with h1 | h1
        · exact absurd h1.symm hxv
        · exact h1
      have hxv' : (v == x) = false := beq_eq_false_iff_ne.mpr (fun h => hxv h.symm)
      simp only [List.map_cons, List.sum_cons, hxv', if_false]
      simpa using sum_indicator_one v xs (List.nodup_cons.mp hnd).2 hmem

lemma sum_counts (choices : List String) (hnd : choices.Nodup) :
    ∀ vals : List String, (∀ v ∈ vals, v ∈ choices) →
      (choices.map (fun p => vals.count p)).sum = vals.length
  | [], _ => by simp
  | v :: vals, hsub => by
    have hv : v ∈ choices := hsub v (by simp)
    have h1 : choices.map (fun p => (v :: vals).count p)
        = choices.map (fun p => vals.count p + if v == p then 1 else 0) :=
      List.map_congr_left (fun p _ => by rw [List.count_cons])
    rw [h1, sum_map_add]
    rw [sum_counts choices hnd vals (fun w hw => hsub w (List.mem_cons_of_mem v hw))]
    rw [sum_indicator_one v choices hnd hv]
    simp

/-- Claim C4: both breakdown maps always have exactly their four fixed
enum keys, in order, and an enum value absent from the data is reported
with count 0. -/
theorem stats_breakdown_keys (db : List Ticket) (now : Int) :
    ((stats db now).priority_breakdown.map Prod.fst = PRIORITY_CHOICES)
  ∧ ((stats db now).category_breakdown.map Prod.fst = CATEGORY_CHOICES)
  ∧ (∀ p, p ∈ PRIORITY_CHOICES → (∀ t ∈ db, prioStr t.priority ≠ p) →
      (stats db now).priority_breakdown.lookup p = some 0)
  ∧ (∀ c, c ∈ CATEGORY_CHOICES → (∀ t ∈ db, catStr t.category ≠ c) →
      (stats db now).category_breakdown.lookup c = some 0) := by
  have hsp : (stats db now).priority_breakdown = priority_breakdown db := rfl
  have hsc : (stats db now).category_breakdown = category_breakdown db := rfl
  refine ⟨?_, ?_, ?_, ?_⟩
  · rw [hsp, priority_breakdown_eq, List.map_map]
    have hid : (Prod.fst ∘ fun p => (p, (db.map (fun t => prioStr t.priority)).count p))
        = id := rfl
    rw [hid, List.map_id]
  · rw [hsc, category_breakdown_eq, List.map_map]
    have hid : (Prod.fst ∘ fun c => (c, (db.map (fun t => catStr t.category)).count c))
        = id := rfl
    rw [hid, List.map_id]
  · intro p hp habs
    have hcnt : (db.map (fun t => prioStr t.priority)).count p = 0 := by
      apply List.count_eq_zero.mpr
      intro hmem
      rcases List.mem_map.mp hmem with ⟨t, ht, heq⟩
      exact habs t ht heq
    rw [hsp, priority_breakdown_eq]
    rw [show (PRIORITY_CHOICES.map (fun q => (q, (db.map (fun t => prioStr t.priority)).count q))).lookup p
        = some ((db.map (fun t => prioStr t.priority)).count p) from lookup_map_key _ _ p hp]
    rw [hcnt]
  · intro c hc habs
    have hcnt : (db.map (fun t => catStr t.category)).count c = 0 := by
      apply List.count_eq_zero.mpr
      intro hmem
      rcases List.mem_map.mp hmem with ⟨t, ht, heq⟩
      exact habs t ht heq
    rw [hsc, category_breakdown_eq]
    rw [show (CATEGORY_CHOICES.map (fun q => (q, (db.map (fun t => catStr t.category)).count q))).lookup c
        = some ((db.map (fun t => catStr t.category)).count c) from lookup_map_key _ _ c hc]
    rw [hcnt]

/-- Witness for C4: a one-ticket set; the `critical` priority is absent
and reported as 0. -/
theorem stats_breakdown_keys_witness :
    ((stats [⟨1, "t", "d", .billing, .low, .open_, 0⟩] 0).priority_breakdown.map Prod.fst
      = PRIORITY_CHOICES)
  ∧ ((stats [⟨1, "t", "d", .billing, .low, .open_, 0⟩] 0).priority_breakdown.lookup "critical"
      = some 0) := by
  have h := stats_breakdown_keys [⟨1, "t", "d", .billing, .low, .open_, 0⟩] 0
  exact ⟨h.1, h.2.2.1 "critical" (by decide) (by decide)⟩

/-- Claim C10: every ticket is counted exactly once in each breakdown —
the counts of `priority_breakdown` sum to `total_tickets`, and so do the
counts of `category_breakdown`. -/
theorem stats_breakdown_sums (db : List Ticket) (now : Int) :
    (((stats db now).priority_breakdown.map Prod.snd).sum = (stats db now).total_tickets)
  ∧ (((stats db now).category_breakdown.map Prod.snd).sum = (stats db now).total_tickets) := by
  have htot : (stats db now).total_tickets = db.length := rfl
  have hsp : (stats db now).priority_breakdown = priority_breakdown db := rfl
  have hsc : (stats db now).category_breakdown = category_breakdown db := rfl
  constructor
  · rw [hsp, htot, priority_breakdown_eq, List.map_map]
    have : (Prod.snd ∘ fun p => (p, (db.map (fun t => prioStr t.priority)).count p))
        = fun p => (db.map (fun t => prioStr t.priority)).count p := rfl
    rw [this, sum_counts PRIORITY_CHOICES (by decide) _ (prio_vals_sub db)]
    exact List.length_map _ _
  · rw [hsc, htot, category_breakdown_eq, List.map_map]
    have : (Prod.snd ∘ fun c => (c, (db.map (fun t => catStr t.category)).count c))
        = fun c => (db.map (fun t => catStr t.category)).count c := rfl
    rw [this, sum_counts CATEGORY_CHOICES (by decide) _ (cat_vals_sub db)]
    exact List.length_map _ _

/-! ## Helper lemmas: substring search and filtering -/

lemma isSubChars_iff (needle : List Char) :
    ∀ hay : List Char, isSubChars needle hay = true ↔ ∃ l1 l2, hay = l1 ++ needle ++ l2
  | [] => by
    simp only [isSubChars, List.isEmpty_iff]
    constructor
    · rintro rfl
      exact ⟨[], [], rfl⟩
    · rintro ⟨l1, l2, h⟩
      rcases List.append_eq_nil.mp h.symm with ⟨h1, _⟩
      exact (List.append_eq_nil.mp h1).2
  | c :: rest => by
    simp only [isSubChars, Bool.or_eq_true]
    constructor
    · rintro (hpre | hsub)
      · rcases List.isPrefixOf_iff_prefix.mp hpre with ⟨t2, ht⟩
        exact ⟨[], t2, by simpa using ht.symm⟩
      · rcases (isSubChars_iff needle rest).mp hsub with ⟨l1, l2, h⟩
        exact ⟨c :: l1, l2, by simp [h]⟩
    · rintro ⟨l1, l2, h⟩
      cases l1 with
      | nil =>
        left
        apply List.isPrefixOf_iff_prefix.mpr
        exact ⟨l2, by simpa using h.symm⟩
      | cons a l1' =>
        right
        apply (isSubChars_iff needle rest).mpr
        have h' : c = a ∧ rest = l1' ++ needle ++ l2 := by simpa using h
        exact ⟨l1', l2, h'.2⟩

lemma icontains_iff (needle hay : String) :
    icontains needle hay = true ↔ spec_substr needle hay := by
  unfold icontains spec_substr
  exact isSubChars_iff (lowerChars needle) (lowerChars hay)

lemma mem_filter_opt (l : List Ticket) (f : Ticket → String) (o : Option String) (t : Ticket) :
    (t ∈ match o with
      | none => l
      | some c => if c == "" then l else l.filter (fun u => f u == c))
    ↔ t ∈ l ∧ (∀ c, o = some c → c ≠ "" → f t = c) := by
  cases o with
  | none => simp
  | some c =>
    by_cases hc : c = ""
    · subst hc
      simp
    · simp [List.mem_filter, hc]

lemma mem_filter_search (l : List Ticket) (o : Option String) (t : Ticket) :
    (t ∈ match o with
      | none => l
      | some s => if s == "" then l else
          l.filter (fun u => icontains s u.title || icontains s u.description))
    ↔ t ∈ l ∧ (∀ s, o = some s → s ≠ "" →
        (spec_substr s t.title ∨ spec_substr s t.description)) := by
  cases o with
  | none => simp
  | some s =>
    by_cases hs : s = ""
    · subst hs
      simp
    · simp [List.mem_filter, hs, Bool.or_eq_true, icontains_iff]

lemma mem_get_queryset (db : List Ticket) (qp : QueryParams) (t : Ticket) :
    t ∈ get_queryset db qp ↔ t ∈ db ∧ specSatisfies qp t := by
  obtain ⟨co, po, so, qo⟩ := qp
  unfold get_queryset specSatisfies
  dsimp only
  rw [mem_filter_search]
  rw [mem_filter_opt _ (fun u => statusStr u.status)]
  rw [mem_filter_opt _ (fun u => prioStr u.priority)]
  rw [mem_filter_opt _ (fun u => catStr u.category)]
  tauto

/-- Counterexample to claim C3 as stated: the supplied parameter
`category=""` matches no ticket (every stored category string is
non-empty), yet the listing returns the full set rather than zero rows —
Python truthiness makes the view skip the filter for an empty-string
parameter. -/
theorem list_empty_param_cex :
    list_tickets [⟨1, "Refund request", "please refund", .billing, .high, .open_, 0⟩]
        { category := some "", priority := none, status := none, search := none }
      = [⟨1, "Refund request", "please refund", .billing, .high, .open_, 0⟩]
  ∧ catStr Category.billing ≠ "" := by
  exact ⟨rfl, by decide⟩

/-- Claim C3 (amended): for every combination of the optional parameters,
the list operation returns exactly the tickets satisfying the conjunction
of all supplied NON-EMPTY filters (an empty-string parameter is treated as
not supplied); `search` is satisfied iff the string is a case-insensitive
substring of the title or of the description; a supplied non-empty
category/priority/status value that matches no ticket yields zero rows. -/
theorem list_filter_characterization (db : List Ticket) (qp : QueryParams) (t : Ticket) :
    t ∈ list_tickets db qp ↔ t ∈ db ∧ specSatisfies qp t := by
  rw [list_tickets, List.mem_insertionSort]
  exact mem_get_queryset db qp t

/-- Witness for the amended C3: the spec's own example, `search="refund"`
against a ticket titled "Refund request". -/
theorem list_filter_characterization_witness :
    ((⟨1, "Refund request", "ok", .billing, .high, .open_, 0⟩ : Ticket)
        ∈ list_tickets [⟨1, "Refund request", "ok", .billing, .high, .open_, 0⟩]
            { category := none, priority := none, status := none, search := some "refund" }
      ↔ (⟨1, "Refund request", "ok", .billing, .high, .open_, 0⟩ : Ticket)
          ∈ [(⟨1, "Refund request", "ok", .billing, .high, .open_, 0⟩ : Ticket)]
        ∧ specSatisfies
            { category := none, priority := none, status := none, search := some "refund" }
            ⟨1, "Refund request", "ok", .billing, .high, .open_, 0⟩) :=
  list_filter_characterization _ _ _

/-- Claim C9: the list operation with no parameters returns the full
ticket set, and every list result is ordered newest-first (descending by
`created_at`). -/
theorem list_default_order (db : List Ticket) (qp : QueryParams) :
    List.Perm (list_tickets db noParams) db
  ∧ List.Pairwise (fun a b => b.created_at ≤ a.created_at) (list_tickets db qp) := by
  constructor
  · have h2 := List.perm_insertionSort newestFirst (get_queryset db noParams)
    have h1 : get_queryset db noParams = db := rfl
    rw [h1] at h2
    exact h2
  · exact List.sorted_insertionSort newestFirst (get_queryset db qp)

end STS
